import Mathlib

/-!
Verification of the SFMC email dashboard's data-acquisition core.

The definitions below are a shallow embedding of the repository's
acquisition/composition layer:
* `server.cjs` — Express proxy (authenticate, ensureAuthenticated,
  fetchEmailSends, fetchTrackingEvents, generateDemoData, the
  `/api/dashboard` handler);
* `api/dashboard.js` — Vercel serverless variant of the same logic with
  a body-shape check in its `fetchEmailSends`;
* `api/upload.js` — CSV upload processing plus a legacy copy of the
  dashboard handler;
* `src/services/debugSfmcService.ts` — browser-side service with a
  401-invalidate-and-retry path in `makeApiCall`;
* the CSV / manual-entry merge in the upload UI component.

HTTP calls are modelled by explicit response oracles (lists of candidate
responses, or functions from attempt number to response), `Math.random`
by a stream of rationals in `[0, 1)`, and wall-clock instants by integer
millisecond timestamps.
-/

namespace SfmcDash

/-- JavaScript values as far as the dashboard code inspects them:
JSON bodies returned by the upstream API. -/
inductive Json where
  | null : Json
  | bool (b : Bool) : Json
  | num (n : Int) : Json
  | str (s : String) : Json
  | arr (xs : List Json) : Json
  | obj (fields : List (String × Json)) : Json

/-- JavaScript truthiness of a value (`[]` and `{}` are truthy,
`null`, `false`, `0` and `""` are falsy). -/
def Json.truthy : Json → Bool
  | .null => false
  | .bool b => b
  | .num n => n != 0
  | .str s => s != ""
  | .arr _ => true
  | .obj _ => true

/-- Property access `data.k`: defined only on objects, `none` models
JavaScript `undefined`. -/
def Json.getField : Json → String → Option Json
  | .obj fields, k => fields.lookup k
  | _, _ => none

/-- `Object.keys(data).length` for the values reachable in the probers'
else-branch (strings enumerate their indices; numbers, booleans and
arrays yield what the code would observe there). -/
def Json.numKeys : Json → Nat
  | .obj fields => fields.length
  | .str s => s.length
  | .arr xs => xs.length
  | _ => 0

/-- Outcome of one candidate HTTP GET, as distinguished by the probers:
a 2xx response with a JSON body, a non-2xx HTTP status (axios throws,
carrying the status), or a network error (axios throws without a
response). -/
inductive ProbeResp where
  | success (body : Json) : ProbeResp
  | httpError (status : Nat) : ProbeResp
  | netError : ProbeResp

/-- Whether a candidate's call came back 2xx. -/
def ProbeResp.isSuccess : ProbeResp → Bool
  | .success _ => true
  | _ => false

/-- Sequential probe loop of `server.cjs` `fetchEmailSends` /
`fetchTrackingEvents` (and the copies in `api/upload.js`, and
`api/dashboard.js` `fetchTrackingEvents`): each candidate is tried once,
any 2xx body is returned immediately, any error advances to the next
candidate. Returns the result together with the list of candidate
indices actually called, in call order. -/
def probeGo : Nat → List ProbeResp → Option Json × List Nat
  | _, [] => (none, [])
  | i, .success body :: _ => (some body, [i])
  | i, .httpError _ :: rest =>
      let r := probeGo (i + 1) rest
      (r.1, i :: r.2)
  | i, .netError :: rest =>
      let r := probeGo (i + 1) rest
      (r.1, i :: r.2)

/-- `fetchEmailSends` / `fetchTrackingEvents` of `server.cjs` (first 2xx
response wins, `null` when every candidate fails), instrumented with the
trace of candidate indices called. -/
def firstSuccessProbe (resps : List ProbeResp) : Option Json × List Nat :=
  probeGo 0 resps

/-- Per-candidate body handling of `api/dashboard.js` `fetchEmailSends`:
a body with a truthy `items` field is returned as is; an array body is
wrapped as `{ items: body }`; any other body is returned when
`Object.keys(body).length > 0` and skipped otherwise. -/
def dashProcessBody (data : Json) : Option Json :=
  if ((data.getField "items").map Json.truthy).getD false then
    some data
  else
    match data with
    | .arr xs => some (.obj [("items", .arr xs)])
    | _ => if 0 < data.numKeys then some data else none

/-- What one candidate response contributes in
`api/dashboard.js` `fetchEmailSends`: `none` means the loop continues. -/
def dashStep : ProbeResp → Option Json
  | .success body => dashProcessBody body
  | _ => none

/-- Probe loop of `api/dashboard.js` `fetchEmailSends`, with the trace of
candidate indices called. -/
def dashProbeGo : Nat → List ProbeResp → Option Json × List Nat
  | _, [] => (none, [])
  | i, resp :: rest =>
      match dashStep resp with
      | some v => (some v, [i])
      | none =>
          let r := dashProbeGo (i + 1) rest
          (r.1, i :: r.2)

/-- `fetchEmailSends` of `api/dashboard.js`. -/
def dashboardFetchEmailSends (resps : List ProbeResp) : Option Json × List Nat :=
  dashProbeGo 0 resps

/-- Module-level token state of `server.cjs` / `api/dashboard.js` /
`api/upload.js`: the optional pre-provisioned manual token plus the
mutable `accessToken` / `tokenExpiry` pair (expiry in ms since epoch). -/
structure TokenCache where
  manualToken : Option String
  accessToken : Option String
  tokenExpiry : Option Int
deriving DecidableEq, Repr

/-- `authenticate()` of `server.cjs` / `api/dashboard.js`: `resp` is the
identity endpoint's answer — `some (token, expiresIn)` on success (with
`expiresIn` already defaulted to 3600 as by `expires_in || 3600`), `none`
on any failure. On success the token is cached with
`tokenExpiry = now + expiresIn * 1000` (no margin subtracted here).
The third component counts authentication calls made (always 1). -/
def serverAuthenticate (cache : TokenCache) (now : Int)
    (resp : Option (String × Int)) : Bool × TokenCache × Nat :=
  match resp with
  | some (tok, expiresIn) =>
      (true,
       { cache with accessToken := some tok,
                    tokenExpiry := some (now + expiresIn * 1000) }, 1)
  | none => (false, cache, 1)

/-- `ensureAuthenticated()` of `server.cjs` / `api/dashboard.js`: a manual
token is used unconditionally; otherwise the cached token is reused
unless it is absent or expires within 5 minutes, in which case a single
`authenticate()` call is made. -/
def ensureAuthenticated (cache : TokenCache) (now : Int)
    (resp : Option (String × Int)) : Bool × TokenCache × Nat :=
  match cache.manualToken with
  | some t => (true, { cache with accessToken := some t }, 0)
  | none =>
      match cache.accessToken, cache.tokenExpiry with
      | some _, some e =>
          if e ≤ now + 5 * 60 * 1000 then serverAuthenticate cache now resp
          else (true, cache, 0)
      | some _, none => serverAuthenticate cache now resp
      | none, _ => serverAuthenticate cache now resp

/-- Token state of the browser-side `DebugSFMCService` class. -/
structure DebugSvcState where
  accessToken : Option String
  tokenExpiry : Option Int
deriving DecidableEq, Repr

/-- Observable actions of `debugSfmcService.makeApiCall`, in order. -/
inductive DebugEvent where
  | fetchAttempt (n : Nat) : DebugEvent
  | tokenInvalidated : DebugEvent
  | authenticated : DebugEvent
deriving DecidableEq, Repr

/-- One `fetch` response as seen by `makeApiCall`: an HTTP status and a
JSON body. -/
structure FetchResp where
  status : Nat
  body : Json

/-- `response.ok` of the Fetch API: status in 200..299. -/
def respOk (status : Nat) : Bool :=
  decide (200 ≤ status) && decide (status < 300)

/-- `debugSfmcService.ensureValidToken`: re-authenticates when the token
is missing, or when an expiry is cached and `now ≥ expiry`. On success
`authenticate` caches the token with
`tokenExpiry = now + (expires_in - 120) * 1000` — its 120-second safety
margin is subtracted at caching time. `authenticate` throws on failure
(modelled by `Except.error`). -/
def debugEnsureValidToken (st : DebugSvcState) (now : Int)
    (auth : Option (String × Int)) :
    Except String (DebugSvcState × List DebugEvent) :=
  if st.accessToken.isNone
      || (match st.tokenExpiry with
          | some e => decide (e ≤ now)
          | none => false) then
    match auth with
    | some (tok, expiresIn) =>
        .ok ({ accessToken := some tok,
               tokenExpiry := some (now + (expiresIn - 120) * 1000) },
             [DebugEvent.authenticated])
    | none => .error "Authentication failed"
  else
    .ok (st, [])

/-- `debugSfmcService.makeApiCall`: ensures a valid token, issues the
GET (attempt 0); on a non-ok response with status 401 it nulls the
cached token, re-runs `ensureValidToken` (obtaining a fresh token) and
retries the same endpoint exactly once (attempt 1), returning the retry
body; on any other non-ok status it throws. `fetches` maps the attempt
number to the upstream response. -/
def debugMakeApiCall (st : DebugSvcState) (now : Int)
    (auth : Option (String × Int)) (fetches : Nat → FetchResp) :
    Except String (Json × DebugSvcState × List DebugEvent) :=
  match debugEnsureValidToken st now auth with
  | .error e => .error e
  | .ok (st1, ev1) =>
      let r0 := fetches 0
      if respOk r0.status then
        .ok (r0.body, st1, ev1 ++ [DebugEvent.fetchAttempt 0])
      else if r0.status = 401 then
        match debugEnsureValidToken { st1 with accessToken := none } now auth with
        | .error e => .error e
        | .ok (st2, ev2) =>
            let r1 := fetches 1
            .ok (r1.body, st2,
                 ev1 ++ [DebugEvent.fetchAttempt 0, DebugEvent.tokenInvalidated]
                     ++ ev2 ++ [DebugEvent.fetchAttempt 1])
      else
        .error "API call failed"

/-- `overview` block of a `DashboardPayload`. -/
structure Overview where
  totalSent : Int
  delivered : Int
  opened : Int
  clicked : Int
  bounced : Int
deriving DecidableEq, Repr

/-- One `trends` entry. `dayOffset` is the entry's date as a signed
day offset from "today" (0 = today); `opens` and `clicks` are the exact
rational values the generator computes (`Math.floor` is applied to the
random draw before the `period / 30` scaling, so they need not be
integers). -/
structure TrendEntry where
  dayOffset : Int
  opens : Rat
  clicks : Rat
deriving DecidableEq, Repr

/-- One `campaigns` entry of the demo catalog (dates as day offsets from
now). -/
structure Campaign where
  id : String
  name : String
  dayOffset : Int
  status : String
  sent : Int
  opened : Int
  clicked : Int
deriving DecidableEq, Repr

/-- The payload contract returned to the presentation layer.
`connectionStatus` and `sfmcConnected` are optional because
`server.cjs`'s `generateDemoData` omits them and the handlers attach
them later. -/
structure DashboardPayload where
  overview : Overview
  trends : List TrendEntry
  campaigns : List Campaign
  isRealData : Bool
  error : Option String
  connectionStatus : Option String
  sfmcConnected : Option Bool

/-- `baseMultiplier = daysPeriod / 30` as exact rational arithmetic. -/
def baseMultiplier (period : Int) : Rat :=
  (period : Rat) / 30

/-- The `trends` loop of `generateDemoData` (identical in `server.cjs`,
`api/dashboard.js`, `api/upload.js` and the frontend services): for
`i = period-1` down to `0` it pushes the entry for `today - i` with
`opens = Math.floor(rand * 1000 + 500) * (period / 30)` and
`clicks = Math.floor(rand * 200 + 100) * (period / 30)`. The `j`-th
pushed entry consumes the random draws `rand (2*j)` and
`rand (2*j + 1)`. -/
def demoTrends (period : Int) (rand : Nat → Rat) : List TrendEntry :=
  (List.range period.toNat).map fun (j : Nat) =>
    { dayOffset := (j : Int) - (period - 1),
      opens := ((⌊rand (2 * j) * 1000 + 500⌋ : Int) : Rat) * baseMultiplier period,
      clicks := ((⌊rand (2 * j + 1) * 200 + 100⌋ : Int) : Rat) * baseMultiplier period }

/-- The fixed campaign catalog of `generateDemoData`, scaled by
`period / 30` with `Math.floor`. -/
def demoCampaigns (period : Int) : List Campaign :=
  [{ id := "1", name := "Summer Sale Newsletter", dayOffset := -2,
     status := "Completed",
     sent := ⌊(15000 : Rat) * baseMultiplier period⌋,
     opened := ⌊(4500 : Rat) * baseMultiplier period⌋,
     clicked := ⌊(675 : Rat) * baseMultiplier period⌋ },
   { id := "2", name := "Product Launch Announcement", dayOffset := -5,
     status := "Completed",
     sent := ⌊(8200 : Rat) * baseMultiplier period⌋,
     opened := ⌊(2460 : Rat) * baseMultiplier period⌋,
     clicked := ⌊(410 : Rat) * baseMultiplier period⌋ },
   { id := "3", name := "Weekly Newsletter #23", dayOffset := -7,
     status := "Active",
     sent := ⌊(12000 : Rat) * baseMultiplier period⌋,
     opened := ⌊(3600 : Rat) * baseMultiplier period⌋,
     clicked := ⌊(540 : Rat) * baseMultiplier period⌋ }]

/-- The `overview` block of `generateDemoData`:
`Math.floor(base * (period / 30))` for the five fixed 30-day baselines. -/
def demoOverview (period : Int) : Overview :=
  { totalSent := ⌊(50000 : Rat) * baseMultiplier period⌋,
    delivered := ⌊(48500 : Rat) * baseMultiplier period⌋,
    opened := ⌊(14550 : Rat) * baseMultiplier period⌋,
    clicked := ⌊(2180 : Rat) * baseMultiplier period⌋,
    bounced := ⌊(1500 : Rat) * baseMultiplier period⌋ }

/-- `generateDemoData` of `server.cjs`: no `connectionStatus` or
`sfmcConnected` fields in the returned object. -/
def serverGenerateDemoData (period : Int) (rand : Nat → Rat) : DashboardPayload :=
  { overview := demoOverview period,
    trends := demoTrends period rand,
    campaigns := demoCampaigns period,
    isRealData := false,
    error := some "Using demo data - SFMC API authentication failed",
    connectionStatus := none,
    sfmcConnected := none }

/-- `generateDemoData` of `api/dashboard.js` and of the legacy handler in
`api/upload.js`: additionally carries `connectionStatus` and
`sfmcConnected = false`. -/
def dashGenerateDemoData (period : Int) (rand : Nat → Rat) : DashboardPayload :=
  { overview := demoOverview period,
    trends := demoTrends period rand,
    campaigns := demoCampaigns period,
    isRealData := false,
    error := some "Demo data - SFMC API authentication failed",
    connectionStatus := some "Authentication failed",
    sfmcConnected := some false }

/-- An awaited operation that either produced a value or threw
(rejected); thrown operations are absorbed by the handlers'
`try`/`catch`. -/
inductive OrThrow (α : Type) where
  | val (a : α) : OrThrow α
  | thrown (msg : String) : OrThrow α

/-- Environment of one `GET /api/dashboard` request against
`server.cjs` (also reused for the legacy `api/upload.js` handler):
the outcome of `ensureAuthenticated`, whether a token is in the cache
afterwards, the upstream responses each probe sequence will see, the
outcome of the email-definitions count check, the parsed `period`, and
the `Math.random` stream. -/
structure ServerRequest where
  authResult : OrThrow Bool
  hasToken : Bool
  sendResps : List ProbeResp
  trackResps : List ProbeResp
  defsCount : OrThrow Int
  period : Int
  rand : Nat → Rat

/-- The connected-but-no-data tail of the `server.cjs` handler: demo data
annotated from the inner email-definitions check (success and failure of
that check produce different diagnostics, both with
`sfmcConnected = true` and `isRealData = false`). -/
def serverConnectedFallback (rq : ServerRequest) : Nat × DashboardPayload :=
  let demo := serverGenerateDemoData rq.period rq.rand
  match rq.defsCount with
  | .val c =>
      (200, { demo with
        isRealData := false,
        error := some ("Connected to SFMC successfully! Found " ++ toString c
          ++ " email definitions. Send some emails in SFMC to see real tracking data here."),
        connectionStatus := some "Connected - No email data yet",
        sfmcConnected := some true })
  | .thrown _ =>
      (200, { demo with
        isRealData := false,
        error := some ("Connected to SFMC but API has limited permissions. "
          ++ "Contact your SFMC admin to enable email tracking data access."),
        connectionStatus := some "Connected with limited permissions",
        sfmcConnected := some true })

/-- `processRealSFMCData` (`server.cjs` and `api/dashboard.js`): demo
data re-flagged as real, with `error` cleared. -/
def processRealSFMCData (period : Int) (rand : Nat → Rat) : DashboardPayload :=
  { serverGenerateDemoData period rand with isRealData := true, error := none }

/-- The `GET /api/dashboard` handler of `server.cjs`. Every branch,
including the `catch` branches, answers through `res.json(...)`, i.e.
HTTP 200. -/
def serverDashboardHandler (rq : ServerRequest) : Nat × DashboardPayload :=
  match rq.authResult with
  | .thrown _ => (200, serverGenerateDemoData rq.period rq.rand)
  | .val false => (200, serverGenerateDemoData rq.period rq.rand)
  | .val true =>
      if rq.hasToken then
        let emailSends := (firstSuccessProbe rq.sendResps).1
        let trackingEvents := (firstSuccessProbe rq.trackResps).1
        if emailSends.isSome || trackingEvents.isSome then
          (200, processRealSFMCData rq.period rq.rand)
        else
          serverConnectedFallback rq
      else
        serverConnectedFallback rq

/-- Environment of one `GET /api/dashboard` request against
`api/dashboard.js` (its `lastAuthError` module variable included). -/
structure DashRequest where
  authResult : OrThrow Bool
  lastAuthError : Option String
  hasToken : Bool
  sendResps : List ProbeResp
  trackResps : List ProbeResp
  period : Int
  rand : Nat → Rat

/-- The `GET` path of the `api/dashboard.js` serverless handler.
`Promise.allSettled` keeps per-probe failures local; when authentication
succeeded the payload always gets `sfmcConnected = true` and
`error = undefined`. -/
def dashDashboardHandler (rq : DashRequest) : Nat × DashboardPayload :=
  match rq.authResult with
  | .thrown msg =>
      (200, { dashGenerateDemoData rq.period rq.rand with
        error := some ("Dashboard handler error: " ++ msg) })
  | .val false =>
      (200, { dashGenerateDemoData rq.period rq.rand with
        error := some (rq.lastAuthError.getD "SFMC authentication failed") })
  | .val true =>
      if rq.hasToken then
        let emailSends := (dashboardFetchEmailSends rq.sendResps).1
        let trackingEvents := (firstSuccessProbe rq.trackResps).1
        let hasRealData := emailSends.isSome || trackingEvents.isSome
        let responseData :=
          if hasRealData then
            { processRealSFMCData rq.period rq.rand with
              connectionStatus := some "Successfully connected to SFMC - Real data loaded" }
          else
            { dashGenerateDemoData rq.period rq.rand with
              isRealData := false,
              connectionStatus :=
                some "Connected to SFMC - API permissions limited, using demo data" }
        (200, { responseData with sfmcConnected := some true, error := none })
      else
        (200, { dashGenerateDemoData rq.period rq.rand with
          error := some "Unexpected authentication state" })

/-- The legacy dashboard handler bundled in `api/upload.js`
(`module.exports`): in the connected-but-no-data state it marks the demo
payload `isRealData = true`. -/
def legacyDashboardHandler (rq : ServerRequest) : Nat × DashboardPayload :=
  match rq.authResult with
  | .thrown _ => (200, dashGenerateDemoData rq.period rq.rand)
  | .val false => (200, dashGenerateDemoData rq.period rq.rand)
  | .val true =>
      if rq.hasToken then
        let emailSends := (firstSuccessProbe rq.sendResps).1
        let trackingEvents := (firstSuccessProbe rq.trackResps).1
        if emailSends.isSome || trackingEvents.isSome then
          (200, { dashGenerateDemoData rq.period rq.rand with
            isRealData := true, error := none })
        else
          (200, { dashGenerateDemoData rq.period rq.rand with
            isRealData := true,
            error := some ("Connected to SFMC - Using intelligent demo data "
              ++ "due to API permission limitations"),
            connectionStatus := some "Connected with limited permissions",
            sfmcConnected := some true })
      else
        (200, { dashGenerateDemoData rq.period rq.rand with
          isRealData := true,
          error := some ("Connected to SFMC - Using intelligent demo data "
            ++ "due to API permission limitations"),
          connectionStatus := some "Connected with limited permissions",
          sfmcConnected := some true })

/-- One uploaded or manually entered campaign record after parsing
(`parseInt(...) || 0` already applied, so plain integers; `delivered`
falls back to `sent` through JavaScript `||` when it is 0). -/
structure UploadedCampaign where
  sent : Int
  opened : Int
  clicked : Int
  bounced : Int
  delivered : Int
deriving DecidableEq, Repr

/-- JavaScript `a || b` on numbers already known to be non-NaN. -/
def jsOr (a b : Int) : Int :=
  if a = 0 then b else a

/-- The `reduce` computing `overview` from uploaded campaigns in the
upload UI (`handleFileSelect` and `submitManualData`): fields are summed,
with `delivered` falling back to `sent` per campaign. -/
def computeUploadOverview (cs : List UploadedCampaign) : Overview :=
  cs.foldl
    (fun acc c =>
      { totalSent := acc.totalSent + c.sent,
        delivered := acc.delivered + jsOr c.delivered c.sent,
        opened := acc.opened + c.opened,
        clicked := acc.clicked + c.clicked,
        bounced := acc.bounced + c.bounced })
    { totalSent := 0, delivered := 0, opened := 0, clicked := 0, bounced := 0 }

/-- Result of merging uploaded data into the dashboard shape. -/
structure UploadMergeResult where
  campaigns : List UploadedCampaign
  overview : Overview
  isRealData : Bool
  sfmcConnected : Bool
  connectionStatus : String
deriving DecidableEq, Repr

/-- The CSV-import merge (`handleFileSelect` in the upload component):
uploaded campaigns replace the campaign list, `overview` is recomputed by
summing them, and `isRealData` / `sfmcConnected` are forced true. -/
def csvMergeUploaded (cs : List UploadedCampaign) : UploadMergeResult :=
  { campaigns := cs,
    overview := computeUploadOverview cs,
    isRealData := true,
    sfmcConnected := true,
    connectionStatus := "Data imported from CSV" }

/-- The manual-entry merge (`submitManualData`): same recomputation with
a different provenance string. -/
def manualMergeUploaded (cs : List UploadedCampaign) : UploadMergeResult :=
  { campaigns := cs,
    overview := computeUploadOverview cs,
    isRealData := true,
    sfmcConnected := true,
    connectionStatus := "Manual data entry" }

/-- A `Math.random` stream that always yields 0. -/
def zeroRand : Nat → Rat := fun _ => 0

/-- A `Math.random` stream that always yields 1/2. -/
def halfRand : Nat → Rat := fun _ => 1 / 2

theorem probeGo_append_success (body : Json) (post : List ProbeResp) :
    ∀ (pre : List ProbeResp) (i : Nat), (∀ r ∈ pre, r.isSuccess = false) →
      probeGo i (pre ++ ProbeResp.success body :: post)
        = (some body, List.range' i (pre.length + 1))
  | [], i, _ => rfl
  | r :: pre, i, h => by
      have hr : r.isSuccess = false := h r (List.mem_cons_self r pre)
      have htail : ∀ x ∈ pre, x.isSuccess = false :=
        fun x hx => h x (List.mem_cons_of_mem r hx)
      have ih := probeGo_append_success body post pre (i + 1) htail
      cases r with
      | success b => simp [ProbeResp.isSuccess] at hr
      | httpError s =>
          simp only [List.cons_append, probeGo, List.append_eq, ih,
            List.length_cons, List.range']
      | netError =>
          simp only [List.cons_append, probeGo, List.append_eq, ih,
            List.length_cons, List.range']

theorem dashProbeGo_append_success (body v : Json) (post : List ProbeResp)
    (hbody : dashProcessBody body = some v) :
    ∀ (pre : List ProbeResp) (i : Nat), (∀ r ∈ pre, dashStep r = none) →
      dashProbeGo i (pre ++ ProbeResp.success body :: post)
        = (some v, List.range' i (pre.length + 1))
  | [], i, _ => by
      simp only [List.nil_append, dashProbeGo, dashStep, hbody, List.length_nil,
        List.range']
  | r :: pre, i, h => by
      have hr : dashStep r = none := h r (List.mem_cons_self r pre)
      have htail : ∀ x ∈ pre, dashStep x = none :=
        fun x hx => h x (List.mem_cons_of_mem r hx)
      have ih := dashProbeGo_append_success body v post hbody pre (i + 1) htail
      simp only [List.cons_append, dashProbeGo, hr, List.append_eq, ih,
        List.length_cons, List.range']

/-- C2 (amended): in both probers the first candidate that terminates the
loop wins, exactly `k` candidates are called (indices `0..k-1`, so no
candidate after `k` is attempted), and the loop returns that candidate's
(processed) body. For `server.cjs`'s `fetchEmailSends` /
`fetchTrackingEvents` the loop terminates at the first 2xx response
regardless of how empty its body is; for `api/dashboard.js`'s
`fetchEmailSends` it terminates at the first 2xx response whose body is
kept by `dashProcessBody` (truthy `items`, or an array — wrapped as
`{items: …}` — or a non-empty object). -/
theorem c2_prober_first_success_wins :
    (∀ (pre post : List ProbeResp) (body : Json),
      (∀ r ∈ pre, r.isSuccess = false) →
      firstSuccessProbe (pre ++ ProbeResp.success body :: post)
        = (some body, List.range (pre.length + 1))) ∧
    (∀ (pre post : List ProbeResp) (body v : Json),
      (∀ r ∈ pre, dashStep r = none) →
      dashProcessBody body = some v →
      dashboardFetchEmailSends (pre ++ ProbeResp.success body :: post)
        = (some v, List.range (pre.length + 1))) := by
  constructor
  · intro pre post body h
    rw [firstSuccessProbe, probeGo_append_success body post pre 0 h,
      List.range_eq_range']
  · intro pre post body v h hbody
    rw [dashboardFetchEmailSends, dashProbeGo_append_success body v post hbody pre 0 h,
      List.range_eq_range']

/-- C2 witness: with one failing candidate before the first 2xx one, both
probers make exactly two calls and return that candidate's body. -/
theorem c2_witness :
    ((∀ r ∈ [ProbeResp.netError], ProbeResp.isSuccess r = false) ∧
      firstSuccessProbe [ProbeResp.netError, ProbeResp.success (Json.num 1)]
        = (some (Json.num 1), List.range 2)) ∧
    (dashProcessBody (Json.obj [("items", Json.arr [Json.num 1])])
        = some (Json.obj [("items", Json.arr [Json.num 1])]) ∧
      dashboardFetchEmailSends
          [ProbeResp.netError, ProbeResp.success (Json.obj [("items", Json.arr [Json.num 1])])]
        = (some (Json.obj [("items", Json.arr [Json.num 1])]), List.range 2)) := by
  have h1 : ∀ r ∈ [ProbeResp.netError], ProbeResp.isSuccess r = false := by
    intro r hr
    simp only [List.mem_singleton] at hr
    subst hr
    rfl
  have h2 : ∀ r ∈ [ProbeResp.netError], dashStep r = none := by
    intro r hr
    simp only [List.mem_singleton] at hr
    subst hr
    rfl
  refine ⟨⟨h1, ?_⟩, ⟨rfl, ?_⟩⟩
  · simpa using c2_prober_first_success_wins.1 [ProbeResp.netError] [] (Json.num 1) h1
  · simpa using c2_prober_first_success_wins.2 [ProbeResp.netError] []
      (Json.obj [("items", Json.arr [Json.num 1])])
      (Json.obj [("items", Json.arr [Json.num 1])]) h2 rfl

/-- C2 counterexample to the claim as stated: candidate 2 is the first
candidate with a non-empty item collection / non-empty object body, yet
`server.cjs`'s prober stops after a single call at candidate 1's empty
2xx object body and returns `{}`, and `api/dashboard.js`'s
`fetchEmailSends` stops after a single call at candidate 1's empty 2xx
array body and returns `{items: []}` — instead of the claimed 2 calls
returning candidate 2's body. -/
theorem c2_counterexample :
    firstSuccessProbe [ProbeResp.success (Json.obj []),
        ProbeResp.success (Json.obj [("items", Json.arr [Json.num 1])])]
      = (some (Json.obj []), [0]) ∧
    dashboardFetchEmailSends [ProbeResp.success (Json.arr []),
        ProbeResp.success (Json.obj [("items", Json.arr [Json.num 1])])]
      = (some (Json.obj [("items", Json.arr [])]), [0]) ∧
    Json.obj [] ≠ Json.obj [("items", Json.arr [Json.num 1])] ∧
    ([0] : List Nat) ≠ [0, 1] := by
  refine ⟨rfl, rfl, ?_, by decide⟩
  intro h
  simp at h

/-- C8 counterexample to the claim as stated: when candidate 1 of
`server.cjs`'s prober answers 401, the prober calls candidate 1 exactly
once (no retry with a fresh token, and `authenticate` is never invoked
inside the probe loop) and simply advances to candidate 2. -/
theorem c8_counterexample :
    firstSuccessProbe [ProbeResp.httpError 401, ProbeResp.success (Json.num 7)]
      = (some (Json.num 7), [0, 1]) ∧
    List.count 0 [0, 1] = 1 := by
  exact ⟨rfl, by decide⟩

/-- C8 (amended): `debugSfmcService.makeApiCall` is the variant that, on
a 401 from the probed endpoint, nulls the cached token, re-authenticates
and retries the same endpoint exactly once, returning the retry's body;
the `server.cjs` / `api/dashboard.js` probers instead treat 401 like any
other candidate failure and move on without touching the token. -/
theorem c8_debug_401_invalidate_retry (st : DebugSvcState) (now : Int)
    (tok : String) (expiresIn : Int) (fetches : Nat → FetchResp)
    (htok : st.accessToken.isSome = true)
    (hexp : ∀ e, st.tokenExpiry = some e → now < e)
    (h401 : (fetches 0).status = 401) :
    debugMakeApiCall st now (some (tok, expiresIn)) fetches
      = .ok ((fetches 1).body,
          { accessToken := some tok,
            tokenExpiry := some (now + (expiresIn - 120) * 1000) },
          [DebugEvent.fetchAttempt 0, DebugEvent.tokenInvalidated,
           DebugEvent.authenticated, DebugEvent.fetchAttempt 1]) := by
  obtain ⟨atok, texp⟩ := st
  cases atok with
  | none => simp at htok
  | some a =>
    have h1 : debugEnsureValidToken ⟨some a, texp⟩ now (some (tok, expiresIn))
        = .ok (⟨some a, texp⟩, []) := by
      cases texp with
      | none => rfl
      | some e =>
          have he : ¬ e ≤ now := not_le.mpr (hexp e rfl)
          simp [debugEnsureValidToken, he]
    have hok : respOk (fetches 0).status = false := by
      rw [h401]
      rfl
    rw [debugMakeApiCall, h1]
    simp only [hok, Bool.false_eq_true, if_false, h401, if_pos rfl]
    rfl

/-- C8 witness: a stale-but-unexpired token, a 401 on attempt 0 and a 2xx
on attempt 1: `makeApiCall` invalidates, re-authenticates once and
returns attempt 1's body. -/
def c8Fetches : Nat → FetchResp :=
  fun n => if n = 0 then { status := 401, body := Json.null }
           else { status := 200, body := Json.num 5 }

theorem c8_witness :
    (c8Fetches 0).status = 401 ∧
    debugMakeApiCall { accessToken := some "stale", tokenExpiry := some 1000 } 0
        (some ("fresh", 3600)) c8Fetches
      = .ok ((c8Fetches 1).body,
          { accessToken := some "fresh", tokenExpiry := some (0 + (3600 - 120) * 1000) },
          [DebugEvent.fetchAttempt 0, DebugEvent.tokenInvalidated,
           DebugEvent.authenticated, DebugEvent.fetchAttempt 1]) :=
  ⟨rfl,
   c8_debug_401_invalidate_retry { accessToken := some "stale", tokenExpiry := some 1000 }
     0 "fresh" 3600 c8Fetches rfl
     (fun e he => by injection he with h; omega) rfl⟩

/-- C1: for every GET request environment — authentication throwing or
failing, probes failing with network errors, non-2xx statuses or
malformed bodies, or the definitions check throwing — both dashboard
handlers answer through `res.json`, i.e. with HTTP status 200; and when
authentication failed, the payload carries its diagnostic in the `error`
field. -/
theorem c1_dashboard_always_200 :
    (∀ rq : ServerRequest, (serverDashboardHandler rq).1 = 200) ∧
    (∀ rq : DashRequest, (dashDashboardHandler rq).1 = 200) ∧
    (∀ rq : ServerRequest, rq.authResult = OrThrow.val false →
      ((serverDashboardHandler rq).2.error).isSome = true) ∧
    (∀ rq : DashRequest, rq.authResult = OrThrow.val false →
      ((dashDashboardHandler rq).2.error).isSome = true) := by
  refine ⟨?_, ?_, ?_, ?_⟩
  · intro rq
    obtain ⟨a, tok, se, tr, dc, p, r⟩ := rq
    cases a with
    | thrown m => rfl
    | val v =>
        cases v
        · rfl
        · cases tok
          · cases dc <;> rfl
          · dsimp only [serverDashboardHandler]
            rw [if_pos rfl]
            split
            · rfl
            · cases dc <;> rfl
  · intro rq
    obtain ⟨a, le, tok, se, tr, p, r⟩ := rq
    cases a with
    | thrown m => rfl
    | val v =>
        cases v
        · rfl
        · cases tok
          · rfl
          · rfl
  · intro rq h
    obtain ⟨a, tok, se, tr, dc, p, r⟩ := rq
    cases a with
    | thrown m => simp at h
    | val v =>
        cases v
        · rfl
        · simp at h
  · intro rq h
    obtain ⟨a, le, tok, se, tr, p, r⟩ := rq
    cases a with
    | thrown m => simp at h
    | val v =>
        cases v
        · cases le <;> rfl
        · simp at h

/-- Concrete request environments for the C1 witness. -/
def c1ServerReq : ServerRequest :=
  { authResult := .val false, hasToken := false, sendResps := [],
    trackResps := [], defsCount := .val 0, period := 30, rand := zeroRand }

def c1DashReq : DashRequest :=
  { authResult := .val false, lastAuthError := none, hasToken := false,
    sendResps := [], trackResps := [], period := 30, rand := zeroRand }

theorem c1_witness :
    (serverDashboardHandler c1ServerReq).1 = 200 ∧
    (dashDashboardHandler c1DashReq).1 = 200 ∧
    ((dashDashboardHandler c1DashReq).2.error).isSome = true :=
  ⟨c1_dashboard_always_200.1 c1ServerReq,
   c1_dashboard_always_200.2.1 c1DashReq,
   c1_dashboard_always_200.2.2.2 c1DashReq rfl⟩

/-- C3 (amended): in `api/dashboard.js`, authentication failure yields
`sfmcConnected = false, isRealData = false`, and authentication success
with all probes empty/failed yields `sfmcConnected = true,
isRealData = false`; the legacy dashboard handler in `api/upload.js`
yields `sfmcConnected = true` but `isRealData = true` in that same
connected-but-no-data state. -/
theorem c3_composer_state_machine :
    (∀ rq : DashRequest, rq.authResult = OrThrow.val false →
      (dashDashboardHandler rq).2.sfmcConnected = some false ∧
      (dashDashboardHandler rq).2.isRealData = false) ∧
    (∀ rq : DashRequest, rq.authResult = OrThrow.val true → rq.hasToken = true →
      (dashboardFetchEmailSends rq.sendResps).1 = none →
      (firstSuccessProbe rq.trackResps).1 = none →
      (dashDashboardHandler rq).2.sfmcConnected = some true ∧
      (dashDashboardHandler rq).2.isRealData = false) ∧
    (∀ rq : ServerRequest, rq.authResult = OrThrow.val true → rq.hasToken = true →
      (firstSuccessProbe rq.sendResps).1 = none →
      (firstSuccessProbe rq.trackResps).1 = none →
      (legacyDashboardHandler rq).2.sfmcConnected = some true ∧
      (legacyDashboardHandler rq).2.isRealData = true) := by
  refine ⟨?_, ?_, ?_⟩
  · intro rq h
    obtain ⟨a, le, tok, se, tr, p, r⟩ := rq
    cases a with
    | thrown m => simp at h
    | val v =>
        cases v
        · exact ⟨rfl, rfl⟩
        · simp at h
  · intro rq h htok hse htr
    obtain ⟨a, le, tok, se, tr, p, r⟩ := rq
    cases a with
    | thrown m => simp at h
    | val v =>
        cases v
        · simp at h
        · subst htok
          simp only [dashDashboardHandler] at *
          rw [hse, htr]
          exact ⟨rfl, rfl⟩
  · intro rq h htok hse htr
    obtain ⟨a, tok, se, tr, dc, p, r⟩ := rq
    cases a with
    | thrown m => simp at h
    | val v =>
        cases v
        · simp at h
        · subst htok
          simp only [legacyDashboardHandler] at *
          rw [hse, htr]
          exact ⟨rfl, rfl⟩

/-- Concrete request showing the legacy handler's connected-but-no-data
outcome. -/
def c3LegacyReq : ServerRequest :=
  { authResult := .val true, hasToken := true, sendResps := [],
    trackResps := [], defsCount := .val 0, period := 30, rand := zeroRand }

/-- C3 counterexample to the claim as stated: the legacy `api/upload.js`
dashboard handler, on successful authentication with every probe
failing, returns `sfmcConnected = true` together with
`isRealData = true`, not the claimed `isRealData = false`. -/
theorem c3_counterexample :
    (legacyDashboardHandler c3LegacyReq).2.sfmcConnected = some true ∧
    (legacyDashboardHandler c3LegacyReq).2.isRealData = true ∧
    (legacyDashboardHandler c3LegacyReq).2.isRealData ≠ false := by
  have h : (legacyDashboardHandler c3LegacyReq).2.isRealData = true := by rfl
  refine ⟨by rfl, h, ?_⟩
  rw [h]
  simp

theorem c3_witness :
    c3LegacyReq.authResult = OrThrow.val true ∧
    ((legacyDashboardHandler c3LegacyReq).2.sfmcConnected = some true ∧
      (legacyDashboardHandler c3LegacyReq).2.isRealData = true) :=
  ⟨rfl, c3_composer_state_machine.2.2 c3LegacyReq rfl rfl rfl rfl⟩

theorem uploadOverview_foldl (cs : List UploadedCampaign) :
    ∀ acc : Overview,
      (cs.foldl
        (fun acc c =>
          { totalSent := acc.totalSent + c.sent,
            delivered := acc.delivered + jsOr c.delivered c.sent,
            opened := acc.opened + c.opened,
            clicked := acc.clicked + c.clicked,
            bounced := acc.bounced + c.bounced })
        acc)
      = { totalSent := acc.totalSent + (cs.map UploadedCampaign.sent).sum,
          delivered := acc.delivered
            + (cs.map (fun c => jsOr c.delivered c.sent)).sum,
          opened := acc.opened + (cs.map UploadedCampaign.opened).sum,
          clicked := acc.clicked + (cs.map UploadedCampaign.clicked).sum,
          bounced := acc.bounced + (cs.map UploadedCampaign.bounced).sum } := by
  induction cs with
  | nil => intro acc; simp
  | cons c cs ih =>
      intro acc
      simp only [List.foldl_cons, List.map_cons, List.sum_cons, ih]
      congr 1 <;> ring

/-- C4: the upload merge recomputes `overview` as the componentwise sum
of the uploaded campaigns (with `delivered` falling back to `sent` per
record) and forces `isRealData` and `sfmcConnected` to true; in
particular two rows with sent=100/opened=40 and sent=200/opened=50 merge
to `overview.totalSent = 300` and `overview.opened = 90`. -/
theorem c4_upload_merge (cs : List UploadedCampaign) :
    (csvMergeUploaded cs).overview.totalSent = (cs.map UploadedCampaign.sent).sum ∧
    (csvMergeUploaded cs).overview.opened = (cs.map UploadedCampaign.opened).sum ∧
    (csvMergeUploaded cs).overview.clicked = (cs.map UploadedCampaign.clicked).sum ∧
    (csvMergeUploaded cs).overview.bounced = (cs.map UploadedCampaign.bounced).sum ∧
    (csvMergeUploaded cs).isRealData = true ∧
    (csvMergeUploaded cs).sfmcConnected = true ∧
    (manualMergeUploaded cs).isRealData = true ∧
    (manualMergeUploaded cs).sfmcConnected = true ∧
    (csvMergeUploaded
        [{ sent := 100, opened := 40, clicked := 0, bounced := 0, delivered := 0 },
         { sent := 200, opened := 50, clicked := 0, bounced := 0, delivered := 0 }]
      ).overview.totalSent = 300 ∧
    (csvMergeUploaded
        [{ sent := 100, opened := 40, clicked := 0, bounced := 0, delivered := 0 },
         { sent := 200, opened := 50, clicked := 0, bounced := 0, delivered := 0 }]
      ).overview.opened = 90 := by
  have h := uploadOverview_foldl cs
    { totalSent := 0, delivered := 0, opened := 0, clicked := 0, bounced := 0 }
  refine ⟨?_, ?_, ?_, ?_, rfl, rfl, rfl, rfl, by decide, by decide⟩ <;>
    simp [csvMergeUploaded, computeUploadOverview, h]

/-- C6: without a manual token, `ensureAuthenticated` reuses the cached
token with no authentication call exactly when the cached expiry is more
than 5 minutes in the future; when the token is absent or the expiry is
missing or within 5 minutes, it makes exactly one `authenticate` call. -/
theorem c6_token_cache (cache : TokenCache) (now : Int)
    (resp : Option (String × Int)) (hman : cache.manualToken = none) :
    (∀ e, cache.accessToken.isSome = true → cache.tokenExpiry = some e →
      now + 5 * 60 * 1000 < e →
      ensureAuthenticated cache now resp = (true, cache, 0)) ∧
    ((cache.accessToken = none ∨ cache.tokenExpiry = none ∨
        ∃ e, cache.tokenExpiry = some e ∧ e ≤ now + 5 * 60 * 1000) →
      (ensureAuthenticated cache now resp).2.2 = 1) := by
  have hauth : (serverAuthenticate cache now resp).2.2 = 1 := by
    cases resp with
    | none => rfl
    | some p => obtain ⟨t, ei⟩ := p; rfl
  obtain ⟨man, atok, texp⟩ := cache
  simp only at hman
  subst hman
  constructor
  · intro e hsome hexp hlt
    cases atok with
    | none => simp at hsome
    | some a =>
        cases texp with
        | none => simp at hexp
        | some e2 =>
            simp only [Option.some.injEq] at hexp
            have hne : ¬ e2 ≤ now + 5 * 60 * 1000 := by omega
            dsimp only [ensureAuthenticated]
            rw [if_neg hne]
  · intro h
    cases atok with
    | none => exact hauth
    | some a =>
        cases texp with
        | none => exact hauth
        | some e2 =>
            rcases h with h | h | ⟨e, he, hle⟩
            · simp at h
            · simp at h
            · simp only [Option.some.injEq] at he
              subst he
              dsimp only [ensureAuthenticated]
              rw [if_pos hle]
              exact hauth

/-- Concrete cache states for the C6 witness. -/
def c6FreshCache : TokenCache :=
  { manualToken := none, accessToken := some "tok", tokenExpiry := some 1000000000 }

theorem c6_witness :
    c6FreshCache.manualToken = none ∧
    ((∀ e, c6FreshCache.accessToken.isSome = true →
        c6FreshCache.tokenExpiry = some e → 0 + 5 * 60 * 1000 < e →
        ensureAuthenticated c6FreshCache 0 none = (true, c6FreshCache, 0)) ∧
      ((c6FreshCache.accessToken = none ∨ c6FreshCache.tokenExpiry = none ∨
          ∃ e, c6FreshCache.tokenExpiry = some e ∧ e ≤ 0 + 5 * 60 * 1000) →
        (ensureAuthenticated c6FreshCache 0 none).2.2 = 1)) :=
  ⟨rfl, c6_token_cache c6FreshCache 0 none rfl⟩

/-- C7 counterexample to the claim as stated: `server.cjs`'s
`authenticate` caches `tokenExpiry = now + expires_in * 1000` with no
safety margin subtracted at caching time; at `now = 0`,
`expires_in = 3600` the cached expiry is 3600000 ms, not
`now + expires_in * 1000 − 300000` as the claim (with the spec's
5-minute margin) would require. -/
theorem c7_counterexample :
    (serverAuthenticate
        { manualToken := none, accessToken := none, tokenExpiry := none } 0
        (some ("tok", 3600))).2.1.tokenExpiry = some 3600000 ∧
    (3600000 : Int) ≠ 0 + 3600 * 1000 - 5 * 60 * 1000 := by
  exact ⟨rfl, by decide⟩

/-- C7 (amended): on a successful token exchange `server.cjs` /
`api/dashboard.js` cache `tokenExpiry = now + expires_in * 1000` with no
margin subtracted (their 5-minute margin is applied at validity-check
time in `ensureAuthenticated` instead), while
`debugSfmcService.authenticate` caches
`tokenExpiry = now + (expires_in − 120) * 1000`, subtracting its
120-second margin at caching time. -/
theorem c7_token_expiry_caching (cache : TokenCache) (now : Int)
    (tok : String) (expiresIn : Int) :
    (serverAuthenticate cache now (some (tok, expiresIn))).2.1.tokenExpiry
      = some (now + expiresIn * 1000) ∧
    debugEnsureValidToken { accessToken := none, tokenExpiry := none } now
        (some (tok, expiresIn))
      = .ok ({ accessToken := some tok,
               tokenExpiry := some (now + (expiresIn - 120) * 1000) },
             [DebugEvent.authenticated]) :=
  ⟨rfl, rfl⟩

theorem opens_bounds (r m : Rat) (hr0 : 0 ≤ r) (hr1 : r < 1) (hm : 0 < m) :
    500 * m ≤ ((⌊r * 1000 + 500⌋ : Int) : Rat) * m ∧
    ((⌊r * 1000 + 500⌋ : Int) : Rat) * m < 1500 * m := by
  have h1 : (500 : Int) ≤ ⌊r * 1000 + 500⌋ := by
    apply Int.le_floor.mpr
    push_cast
    nlinarith [mul_nonneg hr0 (show (0 : Rat) ≤ 1000 by norm_num)]
  have h2 : ((⌊r * 1000 + 500⌋ : Int) : Rat) < 1500 := by
    apply lt_of_le_of_lt (Int.floor_le _)
    nlinarith
  constructor
  · exact mul_le_mul_of_nonneg_right (by exact_mod_cast h1) hm.le
  · exact mul_lt_mul_of_pos_right h2 hm

theorem clicks_bounds (r m : Rat) (hr0 : 0 ≤ r) (hr1 : r < 1) (hm : 0 < m) :
    100 * m ≤ ((⌊r * 200 + 100⌋ : Int) : Rat) * m ∧
    ((⌊r * 200 + 100⌋ : Int) : Rat) * m < 300 * m := by
  have h1 : (100 : Int) ≤ ⌊r * 200 + 100⌋ := by
    apply Int.le_floor.mpr
    push_cast
    nlinarith [mul_nonneg hr0 (show (0 : Rat) ≤ 200 by norm_num)]
  have h2 : ((⌊r * 200 + 100⌋ : Int) : Rat) < 300 := by
    apply lt_of_le_of_lt (Int.floor_le _)
    nlinarith
  constructor
  · exact mul_le_mul_of_nonneg_right (by exact_mod_cast h1) hm.le
  · exact mul_lt_mul_of_pos_right h2 hm

/-- C5: for each period in {7, 30, 90} and any `Math.random` stream in
`[0, 1)`, the synthesized `trends` list has exactly `period` entries; the
`j`-th entry's date is `today − (period − 1) + j`, so the entries cover
`[today − period + 1, today]` one per day in strictly ascending date
order; and each entry's opens lies in `[500·m, 1500·m)` and clicks in
`[100·m, 300·m)` where `m = period / 30`. -/
theorem c5_demo_trends (period : Int) (rand : Nat → Rat)
    (hp : period = 7 ∨ period = 30 ∨ period = 90)
    (hr : ∀ i, 0 ≤ rand i ∧ rand i < 1) :
    ((demoTrends period rand).length : Int) = period ∧
    List.Pairwise (fun a b => a.dayOffset < b.dayOffset) (demoTrends period rand) ∧
    (∀ (j : Nat) (e : TrendEntry), (demoTrends period rand)[j]? = some e →
      e.dayOffset = (j : Int) - (period - 1) ∧
      500 * baseMultiplier period ≤ e.opens ∧
      e.opens < 1500 * baseMultiplier period ∧
      100 * baseMultiplier period ≤ e.clicks ∧
      e.clicks < 300 * baseMultiplier period) := by
  have hpos : 0 < period := by rcases hp with rfl | rfl | rfl <;> norm_num
  have hm : 0 < baseMultiplier period := by
    apply div_pos _ (by norm_num)
    exact_mod_cast hpos
  refine ⟨?_, ?_, ?_⟩
  · rw [demoTrends, List.length_map, List.length_range]
    exact Int.toNat_of_nonneg hpos.le
  · rw [demoTrends]
    refine List.Pairwise.map _ ?_ (List.pairwise_lt_range _)
    intro a b hab
    simpa using hab
  · intro j e he
    rw [demoTrends, List.getElem?_map] at he
    rcases hj : (List.range period.toNat)[j]? with _ | k
    · rw [hj] at he; simp at he
    · rw [hj] at he
      simp only [Option.map_some', Option.some.injEq] at he
      have hk : k = j := by
        obtain ⟨hlt, hval⟩ := List.getElem?_eq_some.mp hj
        rw [List.getElem_range] at hval
        exact hval.symm
      subst hk
      subst he
      refine ⟨rfl, ?_, ?_, ?_, ?_⟩
      · exact (opens_bounds _ _ (hr _).1 (hr _).2 hm).1
      · exact (opens_bounds _ _ (hr _).1 (hr _).2 hm).2
      · exact (clicks_bounds _ _ (hr _).1 (hr _).2 hm).1
      · exact (clicks_bounds _ _ (hr _).1 (hr _).2 hm).2

theorem c5_witness :
    ((30 : Int) = 7 ∨ (30 : Int) = 30 ∨ (30 : Int) = 90) ∧
    (∀ i, 0 ≤ halfRand i ∧ halfRand i < 1) ∧
    (((demoTrends 30 halfRand).length : Int) = 30 ∧
      List.Pairwise (fun a b => a.dayOffset < b.dayOffset) (demoTrends 30 halfRand) ∧
      (∀ (j : Nat) (e : TrendEntry), (demoTrends 30 halfRand)[j]? = some e →
        e.dayOffset = (j : Int) - (30 - 1) ∧
        500 * baseMultiplier 30 ≤ e.opens ∧
        e.opens < 1500 * baseMultiplier 30 ∧
        100 * baseMultiplier 30 ≤ e.clicks ∧
        e.clicks < 300 * baseMultiplier 30)) :=
  ⟨Or.inr (Or.inl rfl),
   fun i => by constructor <;> norm_num [halfRand],
   c5_demo_trends 30 halfRand (Or.inr (Or.inl rfl))
     (fun i => by constructor <;> norm_num [halfRand])⟩

/-- C9 (amended): trend opens and clicks are always non-negative
rationals, but are integers only when the scaling multiplier
`period / 30` makes them so — the generator floors the random draw
before scaling, so for periods not a multiple of 30 the values may be
non-integral. -/
theorem c9_trends_nonneg (period : Int) (rand : Nat → Rat)
    (hr : ∀ i, 0 ≤ rand i) :
    ∀ e ∈ demoTrends period rand, 0 ≤ e.opens ∧ 0 ≤ e.clicks := by
  intro e he
  rw [demoTrends, List.mem_map] at he
  obtain ⟨j, hj, rfl⟩ := he
  rw [List.mem_range] at hj
  have hpos : 0 < period := by omega
  have hm : 0 < baseMultiplier period := by
    apply div_pos _ (by norm_num)
    exact_mod_cast hpos
  constructor
  · apply mul_nonneg _ hm.le
    have h1 : (0 : Int) ≤ ⌊rand (2 * j) * 1000 + 500⌋ := by
      apply Int.le_floor.mpr
      push_cast
      nlinarith [mul_nonneg (hr (2 * j)) (show (0 : Rat) ≤ 1000 by norm_num)]
    exact_mod_cast h1
  · apply mul_nonneg _ hm.le
    have h1 : (0 : Int) ≤ ⌊rand (2 * j + 1) * 200 + 100⌋ := by
      apply Int.le_floor.mpr
      push_cast
      nlinarith [mul_nonneg (hr (2 * j + 1)) (show (0 : Rat) ≤ 200 by norm_num)]
    exact_mod_cast h1

theorem c9_witness :
    (∀ i, 0 ≤ zeroRand i) ∧
    (∀ e ∈ demoTrends 7 zeroRand, 0 ≤ e.opens ∧ 0 ≤ e.clicks) :=
  ⟨fun _ => le_refl 0, c9_trends_nonneg 7 zeroRand (fun _ => le_refl 0)⟩

/-- C9 counterexample to the claim as stated: for the requested period 7
(with the random draw 0) the first trend entry's opens is
`500 * (7/30) = 350/3`, which is not an integer. -/
theorem c9_counterexample :
    ∃ e ∈ demoTrends 7 zeroRand, ¬ ∃ n : Int, (n : Rat) = e.opens := by
  have h0 : (0 : Nat) ∈ List.range ((7 : Int).toNat) := by decide
  rw [demoTrends]
  refine ⟨_, List.mem_map_of_mem _ h0, ?_⟩
  rintro ⟨n, hn⟩
  simp only [zeroRand] at hn
  norm_num [baseMultiplier] at hn
  have h3 : (3 : Rat) * n = 350 := by
    rw [hn]
    norm_num
  have h3i : (3 : Int) * n = 350 := by exact_mod_cast h3
  omega

/-- C10: the chain `totalSent ≥ delivered ≥ opened ≥ clicked` is not
enforced by the system — `parseInt(req.query.period) || 30` lets a
negative requested period (e.g. `period = -30`) through to the demo
generator, whose overview then has `totalSent = -50000` strictly below
`delivered = -48500`. -/
theorem c10_overview_chain_not_enforced :
    ∃ period : Int,
      ¬ ((demoOverview period).delivered ≤ (demoOverview period).totalSent ∧
         (demoOverview period).opened ≤ (demoOverview period).delivered ∧
         (demoOverview period).clicked ≤ (demoOverview period).opened) := by
  refine ⟨-30, ?_⟩
  have h1 : (demoOverview (-30)).totalSent = -50000 := by
    show ⌊(50000 : Rat) * baseMultiplier (-30)⌋ = -50000
    rw [show (50000 : Rat) * baseMultiplier (-30) = ((-50000 : Int) : Rat) by
      norm_num [baseMultiplier]]
    exact Int.floor_intCast _
  have h2 : (demoOverview (-30)).delivered = -48500 := by
    show ⌊(48500 : Rat) * baseMultiplier (-30)⌋ = -48500
    rw [show (48500 : Rat) * baseMultiplier (-30) = ((-48500 : Int) : Rat) by
      norm_num [baseMultiplier]]
    exact Int.floor_intCast _
  rintro ⟨hc, -, -⟩
  rw [h1, h2] at hc
  norm_num at hc

end SfmcDash
